import Mathlib

/-!
Verification of the reflection-gated adaptive access control and
Socratic-boundary pipeline of the scribe-tree-writer backend.

The Python sources are shallowly embedded:
Python strings are Lean `String` values processed as `List Char`,
Python floats are modelled as rationals (all constants in the scored
arithmetic are decimal literals, so rational arithmetic agrees with the
intended real-number semantics), fallible steps (network calls to the
external generator) are modelled as explicit `Option`/function-valued
parameters, and the relational store is modelled as a list of records
with a numeric creation timestamp.
-/

set_option maxHeartbeats 4000000
set_option maxRecDepth 4000

namespace ScribeTree

/-! ### Character and string primitives

Models of the Python string operations used by the core:
`str.lower`, the `in` substring test, `str.split()` word counting and
slicing.  Only ASCII case folding is modelled; every marker and pattern
in the source vocabularies is ASCII. -/

/-- Model of ASCII case folding as performed by `str.lower()`:
code points 65..90 are shifted by 32, everything else is unchanged. -/
def lowerChar (c : Char) : Char :=
  if 65 ≤ c.toNat ∧ c.toNat ≤ 90 then Char.ofNat (c.toNat + 32) else c

/-- `str.lower()` over a character list. -/
def lowerStr (l : List Char) : List Char := l.map lowerChar

/-- Does the first list occur at the very start of the second list. -/
def hasPre : List Char → List Char → Bool
  | [], _ => true
  | _ :: _, [] => false
  | a :: as, b :: bs => a == b && hasPre as bs

/-- Model of the Python substring test `needle in hay`. -/
def hasSub (needle : List Char) : List Char → Bool
  | [] => hasPre needle []
  | c :: rest => hasPre needle (c :: rest) || hasSub needle rest

/-- Python whitespace for `str.split()`. -/
def isWS (c : Char) : Bool :=
  c == ' ' || c == '\t' || c == '\n' || c == '\r' || c == '\x0b' || c == '\x0c'

/-- Word counting helper: counts maximal non-whitespace runs.  The flag
records whether the previous character was inside a word. -/
def wordsAux : List Char → Bool → Nat
  | [], _ => 0
  | c :: rest, inWord =>
    if isWS c then wordsAux rest false
    else (if inWord then 0 else 1) + wordsAux rest true

/-- Model of `len(s.split())`: the number of whitespace-separated words. -/
def pyWordCount (s : String) : Nat := wordsAux s.data false

/-- Model of the Python slice `l[-n:]`. -/
def pyLastN (n : Nat) (l : List α) : List α := l.drop (l.length - n)

/-- Model of the Python slice `s[:n]`. -/
def pyTrunc (n : Nat) (s : String) : String := ⟨s.data.take n⟩

/-- Left-to-right concatenation of rendered fragments, modelling a
Python `+=` accumulation loop. -/
def strConcat : List String → String
  | [] => ""
  | s :: rest => s ++ strConcat rest

/-- Does the string start with an ASCII capital letter.  Every marker of
the reflection vocabularies satisfies this. -/
def capFirstB (m : String) : Bool :=
  match m.data with
  | [] => false
  | c :: _ => decide (65 ≤ c.toNat) && decide (c.toNat ≤ 90)

/-! ### `app/prompts/reflection_patterns.py`

The four marker vocabularies, verbatim from the source (apostrophes are
written as `\x27`).  Note that the source keeps the capitalised first
letter of every marker while `calculate_reflection_dimensions` lowercases
the reflection text before matching. -/

def DEPTH_INDICATORS_surface_level : List String :=
  ["I need help", "I don\x27t know", "This is hard", "I\x27m stuck", "Can you help"]

def DEPTH_INDICATORS_developing : List String :=
  ["I think", "Maybe", "It seems", "I\x27m trying to", "I want to"]

def DEPTH_INDICATORS_thoughtful : List String :=
  ["I\x27m considering", "The challenge is", "I\x27ve noticed that", "My approach is",
   "I\x27m exploring"]

def DEPTH_INDICATORS_sophisticated : List String :=
  ["Upon reflection", "I\x27ve analyzed", "The complexity lies in", "I\x27m grappling with",
   "My hypothesis is"]

def SELF_AWARENESS_PATTERNS_low : List String :=
  ["I don\x27t understand", "This doesn\x27t make sense", "Why is this so hard"]

def SELF_AWARENESS_PATTERNS_moderate : List String :=
  ["I\x27m struggling with", "I need to work on", "My weakness is"]

def SELF_AWARENESS_PATTERNS_high : List String :=
  ["I recognize that I", "My tendency is to", "I\x27m aware that my", "I\x27ve noticed I often"]

def CRITICAL_THINKING_MARKERS_questioning : List String :=
  ["What if", "How might", "Could it be", "Why does", "What causes"]

def CRITICAL_THINKING_MARKERS_analyzing : List String :=
  ["This connects to", "The relationship between", "This implies", "This suggests",
   "This demonstrates"]

def CRITICAL_THINKING_MARKERS_evaluating : List String :=
  ["The strength of", "The weakness in", "This assumes", "The evidence shows",
   "This contradicts"]

def CRITICAL_THINKING_MARKERS_synthesizing : List String :=
  ["Bringing together", "This combines", "Integrating these ideas", "The pattern here",
   "The overall picture"]

def GROWTH_MINDSET_INDICATORS_fixed : List String :=
  ["I can\x27t", "I\x27m not good at", "This is too hard", "I give up",
   "I\x27ll never understand"]

def GROWTH_MINDSET_INDICATORS_mixed : List String :=
  ["This is difficult but", "I haven\x27t figured out yet", "I need more practice",
   "I\x27m working on"]

def GROWTH_MINDSET_INDICATORS_growth : List String :=
  ["I\x27m learning to", "I can improve by", "Next time I\x27ll", "I\x27m developing",
   "This challenge will help me"]

/-- The list of critical-thinking marker categories, in the dict order of
the source. -/
def CRITICAL_THINKING_CATEGORIES : List (List String) :=
  [CRITICAL_THINKING_MARKERS_questioning, CRITICAL_THINKING_MARKERS_analyzing,
   CRITICAL_THINKING_MARKERS_evaluating, CRITICAL_THINKING_MARKERS_synthesizing]

/-- `any(indicator in text_lower for indicator in markers)`. -/
def anyMarker (low : List Char) (markers : List String) : Bool :=
  markers.any (fun m => hasSub m.data low)

/-- The four dimension sub-scores returned by
`calculate_reflection_dimensions`. -/
structure DimScores where
  depth : Nat
  self_awareness : Nat
  critical_thinking : Nat
  growth_mindset : Nat
deriving DecidableEq, Repr

/-- Embedding of `calculate_reflection_dimensions` (reflection_patterns.py,
lines 111-157): the text is lowercased and each vocabulary is matched with
the substring test, highest tier first; critical thinking counts matching
categories, capped at 4. -/
def calculate_reflection_dimensions (reflection_text : String) : DimScores :=
  let text_lower := lowerStr reflection_text.data
  let depth : Nat :=
    if anyMarker text_lower DEPTH_INDICATORS_sophisticated then 4
    else if anyMarker text_lower DEPTH_INDICATORS_thoughtful then 3
    else if anyMarker text_lower DEPTH_INDICATORS_developing then 2
    else 1
  let self_awareness : Nat :=
    if anyMarker text_lower SELF_AWARENESS_PATTERNS_high then 3
    else if anyMarker text_lower SELF_AWARENESS_PATTERNS_moderate then 2
    else 1
  let ct_score : Nat :=
    (CRITICAL_THINKING_CATEGORIES.map
      (fun markers => if anyMarker text_lower markers then 1 else 0)).sum
  let growth_mindset : Nat :=
    if anyMarker text_lower GROWTH_MINDSET_INDICATORS_growth then 3
    else if anyMarker text_lower GROWTH_MINDSET_INDICATORS_mixed then 2
    else 1
  { depth := depth, self_awareness := self_awareness,
    critical_thinking := min ct_score 4, growth_mindset := growth_mindset }

/-! ### `app/services/socratic_ai.py` : scoring and adaptive level -/

/-- The length bonus of `assess_reflection_quality`. -/
def lengthBonus (word_count : Nat) : ℚ :=
  if 150 ≤ word_count then 1 else if 50 ≤ word_count then 1/2 else 0

/-- Embedding of `SocraticAI.assess_reflection_quality` (socratic_ai.py,
lines 29-67): weighted dimensions plus a length bonus, normalised to the
1..10 scale and clamped above at 10. -/
def assess_reflection_quality (reflection : String) : ℚ :=
  let dimensions := calculate_reflection_dimensions reflection
  let weighted_score : ℚ :=
    (dimensions.depth : ℚ) * 0.3 + (dimensions.self_awareness : ℚ) * 0.2
      + (dimensions.critical_thinking : ℚ) * 0.3 + (dimensions.growth_mindset : ℚ) * 0.2
  let weighted_score := weighted_score + lengthBonus (pyWordCount reflection)
  let normalized_score := weighted_score / 4 * 9 + 1
  min normalized_score 10

/-- The three AI access tiers. -/
inductive AILevel
  | basic
  | standard
  | advanced
deriving DecidableEq, Repr

/-- Rank of a tier, for stating that a rule never lowers the level. -/
def levelRank : AILevel → Nat
  | .basic => 0
  | .standard => 1
  | .advanced => 2

/-- Base tier from the current quality alone (socratic_ai.py lines
316-321; the same mapping is the fallback in ai_partner.py lines
233-238). -/
def baseLevel (current_quality : ℚ) : AILevel :=
  if current_quality < 5 then .basic
  else if current_quality < 8 then .standard
  else .advanced

/-- `all(recent[i] <= recent[i+1] for i in range(len(recent)-1))`. -/
def nondecrB : List ℚ → Bool
  | [] => true
  | [_] => true
  | a :: b :: rest => decide (a ≤ b) && nondecrB (b :: rest)

/-- `all(recent[i] >= recent[i+1] for i in range(len(recent)-1))`. -/
def nonincB : List ℚ → Bool
  | [] => true
  | [_] => true
  | a :: b :: rest => decide (b ≤ a) && nonincB (b :: rest)

/-- The reflection-history trend block of `calculate_adaptive_ai_level`
(socratic_ai.py lines 323-348).  A `some` result models the early
`return` inside the block; `none` means control falls through to the
interaction-history block. -/
def trendStep (base_level : AILevel) (reflection_history : List ℚ) : Option AILevel :=
  if 3 ≤ reflection_history.length then
    let recent_scores := pyLastN 3 reflection_history
    let avg_recent : ℚ := recent_scores.sum / (recent_scores.length : ℚ)
    if nondecrB recent_scores then
      if base_level = .basic ∧ 4.5 ≤ avg_recent then some .standard
      else if base_level = .standard ∧ 7.5 ≤ avg_recent then some .advanced
      else none
    else if nonincB recent_scores then
      if base_level = .advanced ∧ avg_recent < 7 then some .standard
      else if base_level = .standard ∧ avg_recent < 4 then some .basic
      else none
    else none
  else none

/-- The interaction-history engagement block of
`calculate_adaptive_ai_level` (socratic_ai.py lines 350-364), followed by
the final `return base_level`. -/
def engagementStep (base_level : AILevel) (interaction_history : List String) : AILevel :=
  if 2 ≤ interaction_history.length then
    let recent_questions := pyLastN 5 interaction_history
    let avg_question_length : ℚ :=
      ((recent_questions.map pyWordCount).sum : ℚ) / (recent_questions.length : ℚ)
    if 15 < avg_question_length ∧ base_level = .basic then .standard
    else if 25 < avg_question_length ∧ base_level = .standard then .advanced
    else base_level
  else base_level

/-- Embedding of `SocraticAI.calculate_adaptive_ai_level` (socratic_ai.py,
lines 307-364).  History dictionaries are reduced to the fields the code
reads: `quality_score` for reflections and `user_message` for
interactions; a `None` history is the empty list. -/
def calculate_adaptive_ai_level (current_quality : ℚ) (reflection_history : List ℚ)
    (interaction_history : List String) : AILevel :=
  match trendStep (baseLevel current_quality) reflection_history with
  | some level => level
  | none => engagementStep (baseLevel current_quality) interaction_history

/-! ### `app/prompts/socratic_prompts.py` : question templates -/

def BASIC_QUESTION_TEMPLATES : List String :=
  ["What is the main point you\x27re trying to make?",
   "Can you explain why you think that?",
   "What examples could support this idea?",
   "How did you come to this conclusion?",
   "What do you mean when you say...?",
   "Can you tell me more about...?",
   "What makes this important to you?",
   "How does this relate to your topic?"]

def STANDARD_QUESTION_TEMPLATES : List String :=
  ["What evidence do you have for this claim?",
   "How does this connect to your main argument?",
   "What might someone who disagrees say?",
   "Can you think of any counterexamples?",
   "How does this paragraph support your thesis?",
   "What assumptions are you making here?",
   "Why is this the best way to organize these ideas?",
   "What\x27s the relationship between these two points?"]

def ADVANCED_QUESTION_TEMPLATES : List String :=
  ["What are the broader implications of this argument?",
   "How does this challenge or confirm existing perspectives?",
   "What philosophical or ethical considerations arise here?",
   "How might this argument change in different contexts?",
   "What are the limits of this reasoning?",
   "How does your personal perspective influence this analysis?",
   "What paradoxes or tensions exist in your argument?",
   "How might future developments affect this position?"]

/-! ### `app/services/socratic_ai.py` : level-keyed dispatch -/

/-- Template selection in `generate_questions` and
`generate_questions_with_history` (socratic_ai.py lines 74-80 and
255-261): any level other than basic or standard selects the advanced
templates. -/
def generate_questions_templates (ai_level : String) : List String :=
  if ai_level = "basic" then BASIC_QUESTION_TEMPLATES
  else if ai_level = "standard" then STANDARD_QUESTION_TEMPLATES
  else ADVANCED_QUESTION_TEMPLATES

/-- Question-type and instruction selection shared verbatim by
`generate_socratic_response` (socratic_ai.py lines 120-129) and
`generate_socratic_response_with_context` (lines 215-224). -/
def responseRoute (ai_level : String) : String × String :=
  if ai_level = "basic" then
    ("clarifying",
     "Ask simple clarifying questions to help them articulate their thoughts better.")
  else if ai_level = "standard" then
    ("analytical",
     "Ask analytical questions that help them examine their reasoning and evidence.")
  else
    ("critical",
     "Ask sophisticated questions that challenge assumptions and explore deeper implications.")

/-- Embedding of `SocraticAI.get_follow_up_prompts` (socratic_ai.py,
lines 156-176). -/
def get_follow_up_prompts (_context ai_level : String) : List String :=
  if ai_level = "basic" then
    ["What\x27s the main point you\x27re trying to make?",
     "Can you explain that idea more?",
     "What made you think of this approach?"]
  else if ai_level = "standard" then
    ["What evidence supports this claim?",
     "How does this connect to your thesis?",
     "What would someone who disagrees say?"]
  else
    ["What are the implications of this argument?",
     "How does this challenge conventional thinking?",
     "What assumptions are you making here?"]

/-! ### `app/prompts/educational_philosophy.py` : the boundary validator

The source patterns are regular expressions searched with
`re.IGNORECASE`.  Every pattern is a literal except for single
`(a|b|c)` alternation groups and, in four enhancement patterns, one
`.*` gap.  An alternation pattern is embedded as the finite list of its
lowercased literal expansions; `X.*Y` is embedded as `X` followed by `Y`
with no intervening newline (regex `.` does not match a newline). -/

/-- A searched pattern: `src` is the regex source text (used in the
failure reason); `lit` holds the lowercased literal alternatives of an
alternation-only pattern, `gap` holds the two lowercased literals of an
`X.*Y` pattern. -/
inductive RePat
  | lit (src : String) (alts : List String)
  | gap (src : String) (x y : String)
deriving DecidableEq, Repr

/-- Can `y` be found after skipping a newline-free run of characters. -/
def beforeNL (y : List Char) : List Char → Bool
  | [] => hasPre y []
  | c :: rest => hasPre y (c :: rest) || (c != '\n' && beforeNL y rest)

/-- `re.search` of `x.*y`: an occurrence of `x`, then `y`, with no
newline between them. -/
def gapSearch (x y : List Char) : List Char → Bool
  | [] => hasPre x [] && beforeNL y []
  | c :: rest =>
    (hasPre x (c :: rest) && beforeNL y ((c :: rest).drop x.length)) || gapSearch x y rest

/-- `re.search(pattern, response, re.IGNORECASE)`, applied to the
lowercased response text. -/
def RePat.search : RePat → List Char → Bool
  | .lit _ alts, low => alts.any (fun a => hasSub a.data low)
  | .gap _ x y, low => gapSearch x.data y.data low

def RePat.src : RePat → String
  | .lit s _ => s
  | .gap s _ _ => s

/-- `PROHIBITED_PATTERNS` (educational_philosophy.py lines 7-30), each
with its literal expansions. -/
def PROHIBITED_PATTERNS : List RePat :=
  [.lit "Here\x27s a (thesis|paragraph|sentence) for you"
     ["here\x27s a thesis for you", "here\x27s a paragraph for you",
      "here\x27s a sentence for you"],
   .lit "You could write:" ["you could write:"],
   .lit "Try this (opening|conclusion|transition):"
     ["try this opening:", "try this conclusion:", "try this transition:"],
   .lit "Your (thesis|topic sentence) should be:"
     ["your thesis should be:", "your topic sentence should be:"],
   .lit "The answer is" ["the answer is"],
   .lit "You should (write|say|argue)"
     ["you should write", "you should say", "you should argue"],
   .lit "The best way to" ["the best way to"],
   .lit "Here\x27s what to do:" ["here\x27s what to do:"],
   .lit "Your main argument is" ["your main argument is"],
   .lit "The evidence shows that" ["the evidence shows that"],
   .lit "This means that" ["this means that"],
   .lit "In conclusion," ["in conclusion,"],
   .lit "Let me (write|create|draft) that for you"
     ["let me write that for you", "let me create that for you",
      "let me draft that for you"],
   .lit "I\x27ll (help|do|complete) that"
     ["i\x27ll help that", "i\x27ll do that", "i\x27ll complete that"],
   .lit "Here\x27s the (solution|answer|fix)"
     ["here\x27s the solution", "here\x27s the answer", "here\x27s the fix"]]

/-- `ENHANCEMENT_PATTERNS` (educational_philosophy.py lines 33-51). -/
def ENHANCEMENT_PATTERNS : List RePat :=
  [.lit "What (do you think|might|could)"
     ["what do you think", "what might", "what could"],
   .lit "How (might|could|would)" ["how might", "how could", "how would"],
   .lit "Why (do you think|might)" ["why do you think", "why might"],
   .lit "Consider (what|how|why)" ["consider what", "consider how", "consider why"],
   .lit "What if" ["what if"],
   .lit "Have you considered" ["have you considered"],
   .lit "Think about" ["think about"],
   .lit "Explore (how|what|why)" ["explore how", "explore what", "explore why"],
   .gap "You mentioned.*what about" "you mentioned" "what about",
   .lit "Building on your idea" ["building on your idea"],
   .gap "Your point about.*suggests" "your point about" "suggests",
   .gap "That\x27s interesting.*why" "that\x27s interesting" "why"]

/-- `INDEPENDENCE_BUILDERS` (educational_philosophy.py lines 54-63),
matched as plain case-insensitive substrings. -/
def INDEPENDENCE_BUILDERS : List String :=
  ["What\x27s your perspective on",
   "How do you see",
   "What matters to you about",
   "From your experience",
   "In your view",
   "What strikes you about",
   "How would you approach",
   "What questions do you have"]

/-- Embedding of `validate_ai_response` (educational_philosophy.py,
lines 167-198): prohibited patterns first (first match wins and its
source is named in the reason), then at least one enhancement pattern,
then at least one independence builder. -/
def validate_ai_response (response : String) : Bool × String :=
  let low := lowerStr response.data
  match PROHIBITED_PATTERNS.find? (fun p => p.search low) with
  | some pat => (false, "Response contains prohibited pattern: " ++ pat.src)
  | none =>
    if ENHANCEMENT_PATTERNS.any (fun p => p.search low) then
      if INDEPENDENCE_BUILDERS.any (fun b => hasSub (lowerStr b.data) low) then
        (true, "Response follows bounded enhancement principles")
      else
        (false, "Response doesn\x27t promote independent thinking")
    else
      (false, "Response lacks questioning or exploratory language")

/-! ### Store records and windowing (`app/api/ai_partner.py`)

The relational store is modelled as lists of records carrying a numeric
creation timestamp; an `ORDER BY created_at DESC LIMIT n` query is the
sort of the rows under the descending timestamp order followed by
`take n`. -/

/-- The fields of an `AIInteraction` row read by the ask pipeline. -/
structure InteractionRec where
  user_message : String
  ai_response : String
  ai_level : String
  question_type : String
  created_at : Nat
deriving DecidableEq, Repr

/-- The fields of a `DocumentVersion` row read by the ask pipeline. -/
structure VersionRec where
  content : String
  version_number : Nat
  created_at : Nat
deriving DecidableEq, Repr

/-- `ORDER BY created_at DESC LIMIT 5` over the interactions of the
document (ai_partner.py lines 350-359). -/
def convQueryDesc (stored : List InteractionRec) : List InteractionRec :=
  (stored.mergeSort (fun a b => decide (b.created_at ≤ a.created_at))).take 5

/-- The conversation history handed to the generator: the query result
reversed into chronological order (ai_partner.py line 362). -/
def askConvWindow (stored : List InteractionRec) : List InteractionRec :=
  (convQueryDesc stored).reverse

/-- `ORDER BY created_at DESC LIMIT 3` over the document versions
(ai_partner.py lines 376-382). -/
def versionQueryDesc (versions : List VersionRec) : List VersionRec :=
  (versions.mergeSort (fun a b => decide (b.created_at ≤ a.created_at))).take 3

/-! ### Prompt assembly (`generate_socratic_response_with_context`) -/

/-- One student/assistant turn pair of the history section
(socratic_ai.py lines 201-202). -/
def renderConvTurn (conv : InteractionRec) : String :=
  "Student: " ++ conv.user_message ++ "\n" ++ "You: " ++ conv.ai_response ++ "\n\n"

/-- The conversation-history section (socratic_ai.py lines 198-203):
present when the history is nonempty, windowed to the last 5 turns. -/
def historySection (conversation_history : List InteractionRec) : String :=
  if conversation_history.length ≠ 0 then
    "\n\nPrevious conversation:\n"
      ++ strConcat ((pyLastN 5 conversation_history).map renderConvTurn)
  else ""

/-- One rendered document version (socratic_ai.py lines 209-211):
`Version {i+1}: ` then the first 200 characters and an ellipsis. -/
def renderVersion (i : Nat) (version : VersionRec) : String :=
  "Version " ++ toString (i + 1) ++ ": " ++ pyTrunc 200 version.content ++ "...\n"

/-- The document-evolution section (socratic_ai.py lines 206-213): the
last 3 versions, each truncated, when more than one version exists;
otherwise the document summary if one is supplied (the ask endpoint
supplies none). -/
def versionsSection (document_versions : List VersionRec)
    (document_summary : Option String) : String :=
  if 1 < document_versions.length then
    "\n\nTheir writing has evolved through these versions:\n"
      ++ strConcat ((pyLastN 3 document_versions).enum.map
          (fun p => renderVersion p.1 p.2))
  else
    match document_summary with
    | some s => if s.length ≠ 0 then "\n\nDocument summary: " ++ s ++ "\n" else ""
    | none => ""

/-- The fixed opening of the enhanced prompt (socratic_ai.py lines
191-195), with the f-string interpolations of context and question. -/
def promptOpening (question context : String) : String :=
  "The student is working on this writing:\n        \"" ++ context
    ++ "\"\n\n        They asked: \"" ++ question ++ "\"\n        "

/-- The fixed closing instruction of the enhanced prompt
(socratic_ai.py lines 227-232). -/
def promptClosing : String :=
  "\n        Respond with 1-2 thoughtful questions that guide them to find their own answer.\n        Do not provide direct answers or write any content for them.\n        Consider their previous conversations and how their thinking has evolved.\n        End with an encouraging note about their thinking process.\n        "

/-- The assembled generation prompt of
`generate_socratic_response_with_context` (socratic_ai.py lines
190-232). -/
def buildContextPrompt (question context ai_level : String)
    (conversation_history : List InteractionRec)
    (document_versions : List VersionRec)
    (document_summary : Option String) : String :=
  promptOpening question context
    ++ historySection conversation_history
    ++ versionsSection document_versions document_summary
    ++ "\n\n" ++ (responseRoute ai_level).2 ++ "\n"
    ++ promptClosing

/-- Embedding of `SocraticAI.generate_socratic_response_with_context`
(socratic_ai.py lines 178-244).  The external chat-completion call is a
black-box `gen` from the prompt to the model text; the question type is
derived from the level. -/
def generate_socratic_response_with_context (question context ai_level : String)
    (conversation_history : List InteractionRec)
    (document_versions : List VersionRec)
    (document_summary : Option String)
    (gen : String → String) : String × String :=
  (gen (buildContextPrompt question context ai_level conversation_history
      document_versions document_summary),
   (responseRoute ai_level).1)

/-! ### The ask endpoint (`ask_ai_partner`, ai_partner.py lines 329-464) -/

/-- The response body of the ask endpoint. -/
structure AIResponsePayload where
  response : String
  follow_up_prompts : List String
  question_type : String
deriving DecidableEq, Repr

/-- Embedding of `ask_ai_partner` for an owned document: fetch and
window the conversation and version history, generate the response with
context, persist an `AIInteraction` row carrying the generated response,
and return the payload.  No validation step exists between generation
and persistence/return in the source. -/
def ask_ai_partner (question context ai_level : String)
    (stored : List InteractionRec) (versions : List VersionRec)
    (gen : String → String) (now : Nat) :
    AIResponsePayload × List InteractionRec :=
  let conversation_data := askConvWindow stored
  let document_versions_data := versionQueryDesc versions
  let out := generate_socratic_response_with_context question context ai_level
    conversation_data document_versions_data none gen
  let interaction : InteractionRec :=
    { user_message := question, ai_response := out.1, ai_level := ai_level,
      question_type := out.2, created_at := now }
  ({ response := out.1,
     follow_up_prompts := get_follow_up_prompts context ai_level,
     question_type := out.2 },
   stored ++ [interaction])

/-! ### The reflect endpoint (`submit_reflection`, ai_partner.py lines
131-326)

Each fallible step is explicit: `assessOk` and `adaptiveOk` say whether
the quality assessment and the adaptive-level computation raised, and
the two generator tiers are `Option`-valued (`none` models a raised
exception). -/

/-- The response body of the reflect endpoint. -/
structure ReflectionResponse where
  access_granted : Bool
  quality_score : ℚ
  ai_level : Option AILevel
  feedback : String
  suggestions : Option (List String)
  initial_questions : Option (List String)
deriving DecidableEq, Repr

/-- The fixed fallback questions per level (ai_partner.py lines
291-309), used when both generator tiers fail. -/
def defaultQuestions : AILevel → List String
  | .basic =>
    ["What is the main point you\x27re trying to make?",
     "Can you tell me more about your topic?",
     "What challenges are you facing?"]
  | .standard =>
    ["What evidence supports your argument?",
     "How does this connect to your thesis?",
     "What are the key points you want to explore?"]
  | .advanced =>
    ["What are the implications of your argument?",
     "How might different perspectives challenge your view?",
     "What assumptions underlie your reasoning?"]

/-- The access gate of `submit_reflection` (ai_partner.py lines 160-238)
on its two numeric inputs: the word-count rule first, then the
quality-score rule, then the granted adaptive level. -/
def accessGate (word_count : Nat) (quality_score : ℚ) (reflection_history : List ℚ)
    (interaction_history : List String) : Bool × Option AILevel :=
  if word_count < 50 then (false, none)
  else if quality_score < 3 then (false, none)
  else (true, some (calculate_adaptive_ai_level quality_score reflection_history
      interaction_history))

/-- Embedding of `submit_reflection` for an owned document
(ai_partner.py lines 131-326): quality assessment with its moderate
default on failure, the word-count and quality gates, the adaptive level
with its base-mapping fallback, and the three-tier question generation
chain ending in the fixed per-level questions. -/
def submit_reflection (reflection : String) (reflection_history : List ℚ)
    (interaction_history : List String) (assessOk adaptiveOk : Bool)
    (genHist genPlain : Option (List String)) : ReflectionResponse :=
  let quality_score : ℚ :=
    if assessOk then assess_reflection_quality reflection else 5
  let word_count := pyWordCount reflection
  if word_count < 50 then
    { access_granted := false, quality_score := quality_score, ai_level := none,
      feedback := "Your reflection needs more depth. Aim for at least 50 words to show your thinking process.",
      suggestions := some
        ["What is the main point you\x27re trying to make?",
         "What challenges are you facing with this topic?",
         "What questions do you have about your approach?"],
      initial_questions := none }
  else if quality_score < 3 then
    { access_granted := false, quality_score := quality_score, ai_level := none,
      feedback := "Take a moment to think deeper about your approach. What are you really trying to accomplish?",
      suggestions := some
        ["Explain your main argument or thesis",
         "Describe what evidence you plan to use",
         "Identify specific areas where you need help"],
      initial_questions := none }
  else
    let ai_level :=
      if adaptiveOk then
        calculate_adaptive_ai_level quality_score reflection_history interaction_history
      else baseLevel quality_score
    let initial_questions :=
      match genHist with
      | some qs => qs
      | none =>
        match genPlain with
        | some qs => qs
        | none => defaultQuestions ai_level
    { access_granted := true, quality_score := quality_score,
      ai_level := some ai_level,
      feedback := "Great reflection! I\x27m here to help you think through your ideas.",
      suggestions := none, initial_questions := some initial_questions }

/-- A thirty-word message, used to instantiate the engagement rule of
the adaptive level engine. -/
def thirtyWords : String := String.intercalate " " (List.replicate 30 "w")

/-- A sample interaction row with timestamp `i`, used to instantiate the
windowing theorems on a concrete 20-row store. -/
def sampleInteraction (i : Nat) : InteractionRec :=
  { user_message := "question " ++ toString i, ai_response := "answer " ++ toString i,
    ai_level := "standard", question_type := "analytical", created_at := i }

/-! ## Lemmas about the string primitives -/

lemma char_toNat_ofNat_of_small (n : Nat) (h : n < 55296) : (Char.ofNat n).toNat = n := by
  have hv : n.isValidChar := Or.inl h
  rw [Char.ofNat, dif_pos hv]
  simp [Char.ofNatAux, Char.toNat, UInt32.toNat, BitVec.toNat_ofNatLt]

lemma lowerChar_not_upper (c : Char) :
    ¬(65 ≤ (lowerChar c).toNat ∧ (lowerChar c).toNat ≤ 90) := by
  unfold lowerChar
  by_cases h : 65 ≤ c.toNat ∧ c.toNat ≤ 90
  · rw [if_pos h]
    rw [char_toNat_ofNat_of_small (c.toNat + 32) (by omega)]
    omega
  · rw [if_neg h]
    exact h

lemma hasPre_head_mem {k : Char} {rest h : List Char} :
    hasPre (k :: rest) h = true → k ∈ h := by
  cases h with
  | nil => intro hc; simp [hasPre] at hc
  | cons c cs =>
    intro hc
    simp only [hasPre, Bool.and_eq_true, beq_iff_eq] at hc
    simp [hc.1]

lemma hasSub_head_mem {k : Char} {rest : List Char} :
    ∀ {h : List Char}, hasSub (k :: rest) h = true → k ∈ h := by
  intro h
  induction h with
  | nil => intro hc; simp [hasSub, hasPre] at hc
  | cons c cs ih =>
    intro hc
    simp only [hasSub, Bool.or_eq_true] at hc
    rcases hc with hc | hc
    · exact hasPre_head_mem hc
    · exact List.mem_cons_of_mem _ (ih hc)

lemma hasSub_lowerStr_capFirst {m : String} (hm : capFirstB m = true) (l : List Char) :
    hasSub m.data (lowerStr l) = false := by
  unfold capFirstB at hm
  rcases hd : m.data with _ | ⟨k, rest⟩
  · rw [hd] at hm; simp at hm
  · rw [hd] at hm
    simp only [Bool.and_eq_true, decide_eq_true_eq] at hm
    by_contra hc
    rw [Bool.not_eq_false] at hc
    have hk : k ∈ lowerStr l := hasSub_head_mem hc
    rcases List.mem_map.mp hk with ⟨d, _, hdk⟩
    exact lowerChar_not_upper d (by rw [hdk]; exact hm)

lemma anyMarker_lowerStr_false {M : List String} (hM : M.all capFirstB = true)
    (l : List Char) : anyMarker (lowerStr l) M = false := by
  rw [anyMarker, List.any_eq_false]
  intro m hm
  rw [List.all_eq_true] at hM
  simp [hasSub_lowerStr_capFirst (hM m hm) l]

/-- Because every marker keeps its capitalised first letter while the
reflection text is lowercased before matching, no marker ever matches:
the dimension scorer is the constant floor function. -/
lemma dims_const (s : String) :
    calculate_reflection_dimensions s = ⟨1, 1, 0, 1⟩ := by
  simp only [calculate_reflection_dimensions, CRITICAL_THINKING_CATEGORIES,
    List.map_cons, List.map_nil,
    anyMarker_lowerStr_false (M := DEPTH_INDICATORS_sophisticated) (by decide),
    anyMarker_lowerStr_false (M := DEPTH_INDICATORS_thoughtful) (by decide),
    anyMarker_lowerStr_false (M := DEPTH_INDICATORS_developing) (by decide),
    anyMarker_lowerStr_false (M := SELF_AWARENESS_PATTERNS_high) (by decide),
    anyMarker_lowerStr_false (M := SELF_AWARENESS_PATTERNS_moderate) (by decide),
    anyMarker_lowerStr_false (M := GROWTH_MINDSET_INDICATORS_growth) (by decide),
    anyMarker_lowerStr_false (M := GROWTH_MINDSET_INDICATORS_mixed) (by decide),
    anyMarker_lowerStr_false (M := CRITICAL_THINKING_MARKERS_questioning) (by decide),
    anyMarker_lowerStr_false (M := CRITICAL_THINKING_MARKERS_analyzing) (by decide),
    anyMarker_lowerStr_false (M := CRITICAL_THINKING_MARKERS_evaluating) (by decide),
    anyMarker_lowerStr_false (M := CRITICAL_THINKING_MARKERS_synthesizing) (by decide)]
  simp

lemma hasPre_self_append (n t : List Char) : hasPre n (n ++ t) = true := by
  induction n with
  | nil => rfl
  | cons a as ih => simp [hasPre, ih]

lemma hasPre_append_right {n h : List Char} (t : List Char)
    (hp : hasPre n h = true) : hasPre n (h ++ t) = true := by
  induction n generalizing h with
  | nil => rfl
  | cons a as ih =>
    cases h with
    | nil => simp [hasPre] at hp
    | cons b bs =>
      simp only [hasPre, Bool.and_eq_true] at hp ⊢
      exact ⟨hp.1, ih hp.2⟩

lemma hasSub_of_hasPre {n h : List Char} (hp : hasPre n h = true) :
    hasSub n h = true := by
  cases h with
  | nil => simpa [hasSub] using hp
  | cons c cs => simp [hasSub, hp]

lemma hasSub_append_right {n h : List Char} (t : List Char)
    (hs : hasSub n h = true) : hasSub n (h ++ t) = true := by
  induction h with
  | nil =>
    simp only [hasSub] at hs
    exact hasSub_of_hasPre (hasPre_append_right t hs)
  | cons c cs ih =>
    simp only [hasSub, Bool.or_eq_true, List.cons_append] at hs ⊢
    rcases hs with hs | hs
    · exact Or.inl (by simpa using hasPre_append_right t hs)
    · exact Or.inr (ih hs)

lemma hasSub_append_left {n h : List Char} (pre : List Char)
    (hs : hasSub n h = true) : hasSub n (pre ++ h) = true := by
  induction pre with
  | nil => simpa using hs
  | cons c cs ih => simp [hasSub, ih]

lemma hasSub_middle {n m : List Char} (a b : List Char)
    (hs : hasSub n m = true) : hasSub n (a ++ m ++ b) = true := by
  rw [List.append_assoc]
  exact hasSub_append_left a (hasSub_append_right b hs)

lemma lowerStr_append (a b : List Char) :
    lowerStr (a ++ b) = lowerStr a ++ lowerStr b := List.map_append lowerChar a b

/-- Claim C2: the dimension scorer is claimed to match its marker
vocabularies case-insensitively, giving depth 4 to any text containing a
sophisticated marker such as "Upon reflection".  In the code, the text
is lowercased but the markers keep their capital first letter, so no
marker ever matches: the scorer returns the floor scores
(depth 1, self-awareness 1, critical thinking 0, growth mindset 1) for
every input, including a text that contains the sophisticated marker
"upon reflection" up to letter casing. -/
theorem c2_dimension_scorer_constant_floor :
    (∀ s : String, calculate_reflection_dimensions s = ⟨1, 1, 0, 1⟩)
    ∧ hasSub "upon reflection".data
        (lowerStr "Upon reflection, I have analyzed my argument".data) = true
    ∧ calculate_reflection_dimensions
        "Upon reflection, I have analyzed my argument" = ⟨1, 1, 0, 1⟩ := by
  refine ⟨dims_const, by decide, dims_const _⟩

lemma dims_lower_bounds (s : String) :
    1 ≤ (calculate_reflection_dimensions s).depth
    ∧ 1 ≤ (calculate_reflection_dimensions s).self_awareness
    ∧ 1 ≤ (calculate_reflection_dimensions s).growth_mindset := by
  simp only [calculate_reflection_dimensions]
  refine ⟨?_, ?_, ?_⟩ <;> (dsimp only; split_ifs <;> omega)

lemma lengthBonus_nonneg (wc : Nat) : 0 ≤ lengthBonus wc := by
  unfold lengthBonus
  split
  · norm_num
  · split <;> norm_num

/-- Claim C5: the reflection quality score is
`((0.3*depth + 0.2*self_awareness + 0.3*critical_thinking +
0.2*growth_mindset + bonus) / 4) * 9 + 1` clamped above at 10, with a
length bonus of 1 for at least 150 words and 1/2 for at least 50 words;
the score always lies in [1, 10], and all-floor dimensions with fewer
than 50 words give exactly 2.575. -/
theorem c5_quality_score_formula (s : String) :
    assess_reflection_quality s
      = min ((((0.3 : ℚ) * (calculate_reflection_dimensions s).depth
          + 0.2 * (calculate_reflection_dimensions s).self_awareness
          + 0.3 * (calculate_reflection_dimensions s).critical_thinking
          + 0.2 * (calculate_reflection_dimensions s).growth_mindset
          + lengthBonus (pyWordCount s)) / 4) * 9 + 1) 10
    ∧ lengthBonus (pyWordCount s)
        = (if 150 ≤ pyWordCount s then (1 : ℚ)
           else if 50 ≤ pyWordCount s then 1/2 else 0)
    ∧ 1 ≤ assess_reflection_quality s
    ∧ assess_reflection_quality s ≤ 10
    ∧ (calculate_reflection_dimensions s = ⟨1, 1, 0, 1⟩ → pyWordCount s < 50 →
        assess_reflection_quality s = 2.575) := by
  have hform : assess_reflection_quality s
      = min ((((0.3 : ℚ) * (calculate_reflection_dimensions s).depth
          + 0.2 * (calculate_reflection_dimensions s).self_awareness
          + 0.3 * (calculate_reflection_dimensions s).critical_thinking
          + 0.2 * (calculate_reflection_dimensions s).growth_mindset
          + lengthBonus (pyWordCount s)) / 4) * 9 + 1) 10 := by
    unfold assess_reflection_quality
    ring_nf
  refine ⟨hform, rfl, ?_, ?_, ?_⟩
  · rw [hform]
    rcases dims_lower_bounds s with ⟨h1, h2, h3⟩
    have hb := lengthBonus_nonneg (pyWordCount s)
    have hd : (1 : ℚ) ≤ (calculate_reflection_dimensions s).depth := by
      exact_mod_cast Nat.one_le_cast.mpr h1
    have hsa : (1 : ℚ) ≤ (calculate_reflection_dimensions s).self_awareness := by
      exact_mod_cast Nat.one_le_cast.mpr h2
    have hgm : (1 : ℚ) ≤ (calculate_reflection_dimensions s).growth_mindset := by
      exact_mod_cast Nat.one_le_cast.mpr h3
    have hct : (0 : ℚ) ≤ (calculate_reflection_dimensions s).critical_thinking := by
      positivity
    rw [le_min_iff]
    constructor
    · nlinarith
    · norm_num
  · rw [hform]; exact min_le_right _ _
  · intro hdim hwc
    rw [hform, hdim]
    have h1 : ¬(150 ≤ pyWordCount s) := by omega
    have h2 : ¬(50 ≤ pyWordCount s) := by omega
    simp only [lengthBonus, if_neg h1, if_neg h2]
    norm_num

/-- Claim C5 witness: the score of a short floor-dimension reflection is
exactly 2.575 and lies in the valid range. -/
theorem c5_quality_score_formula_witness :
    assess_reflection_quality "hello world" = 2.575
    ∧ 1 ≤ assess_reflection_quality "hello world" := by
  refine ⟨(c5_quality_score_formula "hello world").2.2.2.2 (by decide) (by decide),
    (c5_quality_score_formula "hello world").2.2.1⟩

/-! ## The boundary validator -/

lemma validate_invalid_of_prohibited {s : String} {p : RePat}
    (hp : p ∈ PROHIBITED_PATTERNS) (hm : p.search (lowerStr s.data) = true) :
    (validate_ai_response s).1 = false := by
  simp only [validate_ai_response]
  rcases hf : PROHIBITED_PATTERNS.find? (fun q => q.search (lowerStr s.data)) with _ | q
  · exact absurd hm (List.find?_eq_none.mp hf p hp)
  · rw [hf]

/-- Claim C7: the validator runs three short-circuiting checks in order,
with the documented failure reasons; any text containing
"The answer is 42" is invalid, and the all-questions sample text is
valid. -/
theorem c7_validator_checks :
    (∀ (s : String) (p : RePat),
        PROHIBITED_PATTERNS.find? (fun q => q.search (lowerStr s.data)) = some p →
        validate_ai_response s
          = (false, "Response contains prohibited pattern: " ++ p.src))
    ∧ (∀ s : String,
        PROHIBITED_PATTERNS.find? (fun q => q.search (lowerStr s.data)) = none →
        ENHANCEMENT_PATTERNS.any (fun q => q.search (lowerStr s.data)) = false →
        validate_ai_response s
          = (false, "Response lacks questioning or exploratory language"))
    ∧ (∀ s : String,
        PROHIBITED_PATTERNS.find? (fun q => q.search (lowerStr s.data)) = none →
        ENHANCEMENT_PATTERNS.any (fun q => q.search (lowerStr s.data)) = true →
        INDEPENDENCE_BUILDERS.any
          (fun b => hasSub (lowerStr b.data) (lowerStr s.data)) = false →
        validate_ai_response s
          = (false, "Response doesn\x27t promote independent thinking"))
    ∧ (∀ s : String,
        PROHIBITED_PATTERNS.find? (fun q => q.search (lowerStr s.data)) = none →
        ENHANCEMENT_PATTERNS.any (fun q => q.search (lowerStr s.data)) = true →
        INDEPENDENCE_BUILDERS.any
          (fun b => hasSub (lowerStr b.data) (lowerStr s.data)) = true →
        validate_ai_response s
          = (true, "Response follows bounded enhancement principles"))
    ∧ (∀ a b : String,
        (validate_ai_response (a ++ "The answer is 42" ++ b)).1 = false)
    ∧ validate_ai_response
        "What do you think about that? How might you explore this? From your experience, what matters here?"
        = (true, "Response follows bounded enhancement principles") := by
  refine ⟨?_, ?_, ?_, ?_, ?_, by decide⟩
  · intro s p hf
    simp only [validate_ai_response]
    rw [hf]
  · intro s hf he
    simp only [validate_ai_response]
    rw [hf, he]
    rfl
  · intro s hf he hi
    simp only [validate_ai_response]
    rw [hf]
    simp only [he, hi]
    rfl
  · intro s hf he hi
    simp only [validate_ai_response]
    rw [hf]
    simp only [he, hi]
    rfl
  · intro a b
    have hmid : hasSub "the answer is".data
        (lowerStr ("The answer is 42" : String).data) = true := by decide
    have hsub : hasSub "the answer is".data
        (lowerStr (a ++ "The answer is 42" ++ b).data) = true := by
      rw [String.data_append, String.data_append, lowerStr_append, lowerStr_append]
      exact hasSub_middle _ _ hmid
    exact validate_invalid_of_prohibited
      (p := RePat.lit "The answer is" ["the answer is"]) (by decide)
      (by simpa [RePat.search] using hsub)

/-- Claim C7 witness: the validator at the two sample texts of the
claim. -/
theorem c7_validator_checks_witness :
    validate_ai_response "The answer is 42"
      = (false, "Response contains prohibited pattern: " ++ "The answer is")
    ∧ (validate_ai_response ("Well. " ++ "The answer is 42" ++ " Trust me.")).1 = false
    ∧ validate_ai_response "I see. Have you considered the sources?"
      = (false, "Response doesn\x27t promote independent thinking") := by
  refine ⟨c7_validator_checks.1 "The answer is 42"
      (RePat.lit "The answer is" ["the answer is"]) (by decide),
    c7_validator_checks.2.2.2.2.1 "Well. " " Trust me.",
    c7_validator_checks.2.2.1 "I see. Have you considered the sources?"
      (by decide) (by decide) (by decide)⟩

/-! ## The ask pipeline persists and returns unvalidated responses -/

/-- Claim C1: the claim states that every response surfaced or persisted
by the ask operation has passed `validate_ai_response`.  In the code,
`ask_ai_partner` never invokes the validator: whatever text the external
generator returns is both returned to the student and written to the
interaction store, including the text "The answer is 42", which the
validator rejects. -/
theorem c1_ask_pipeline_skips_validation :
    (∀ (resp question context ai_level : String)
        (stored : List InteractionRec) (versions : List VersionRec) (now : Nat),
        (ask_ai_partner question context ai_level stored versions
            (fun _ => resp) now).1.response = resp
        ∧ (ask_ai_partner question context ai_level stored versions
            (fun _ => resp) now).2
          = stored ++ [(⟨question, resp, ai_level, (responseRoute ai_level).1,
              now⟩ : InteractionRec)])
    ∧ (validate_ai_response "The answer is 42").1 = false
    ∧ (ask_ai_partner "How do I end my essay?" "my essay" "advanced" [] []
        (fun _ => "The answer is 42") 7).1.response = "The answer is 42"
    ∧ ((ask_ai_partner "How do I end my essay?" "my essay" "advanced" [] []
        (fun _ => "The answer is 42") 7).2.map (fun i => i.ai_response))
      = ["The answer is 42"] := by
  refine ⟨?_, by decide, rfl, rfl⟩
  intro resp question context ai_level stored versions now
  exact ⟨rfl, rfl⟩

/-! ## The adaptive level engine -/

lemma adaptive_of_trend_some {q : ℚ} {rh : List ℚ} (ih : List String) {l : AILevel}
    (h : trendStep (baseLevel q) rh = some l) :
    calculate_adaptive_ai_level q rh ih = l := by
  simp [calculate_adaptive_ai_level, h]

lemma adaptive_of_trend_none {q : ℚ} {rh : List ℚ} (ih : List String)
    (h : trendStep (baseLevel q) rh = none) :
    calculate_adaptive_ai_level q rh ih = engagementStep (baseLevel q) ih := by
  simp [calculate_adaptive_ai_level, h]

lemma pyLastN_length_of_le {l : List α} {n : Nat} (h : n ≤ l.length) :
    (pyLastN n l).length = n := by
  simp [pyLastN]; omega

lemma trendStep_eq (b : AILevel) (rh : List ℚ) (h3 : 3 ≤ rh.length) :
    trendStep b rh =
      (if nondecrB (pyLastN 3 rh) then
        (if b = .basic ∧ 4.5 ≤ (pyLastN 3 rh).sum / 3 then some .standard
         else if b = .standard ∧ 7.5 ≤ (pyLastN 3 rh).sum / 3 then some .advanced
         else none)
       else if nonincB (pyLastN 3 rh) then
        (if b = .advanced ∧ (pyLastN 3 rh).sum / 3 < 7 then some .standard
         else if b = .standard ∧ (pyLastN 3 rh).sum / 3 < 4 then some .basic
         else none)
       else none) := by
  have hlen : ((pyLastN 3 rh).length : ℚ) = 3 := by
    rw [pyLastN_length_of_le h3]; norm_num
  simp only [trendStep, if_pos h3, hlen]

/-- Claim C6 counterexample: the history [5, 5, 5] is non-increasing,
its average 5 is below 7, and the base level of quality 9 is advanced,
so the claim as stated demands a downgrade to standard; the code treats
the constant history in the non-decreasing branch first and returns
advanced unchanged. -/
theorem c6_counterexample :
    baseLevel 9 = AILevel.advanced
    ∧ nonincB (pyLastN 3 [5, 5, 5]) = true
    ∧ (pyLastN 3 [(5 : ℚ), 5, 5]).sum / 3 < 7
    ∧ calculate_adaptive_ai_level 9 [5, 5, 5] [] = AILevel.advanced
    ∧ AILevel.advanced ≠ AILevel.standard := by
  refine ⟨by decide, by decide, by norm_num [pyLastN], ?_, by decide⟩
  norm_num [calculate_adaptive_ai_level, trendStep, engagementStep, baseLevel,
    pyLastN, nondecrB, nonincB] <;> rfl

/-- Claim C6 (amended): with at least 3 recorded reflections the engine
examines the last 3 scores; if they are non-decreasing it upgrades base
basic to standard at average at least 4.5 and base standard to advanced
at average at least 7.5; if they are non-increasing AND NOT
non-decreasing (the improvement branch is tried first, so a constant
window falls into it and is never treated as a decline) it downgrades
base advanced to standard below average 7 and base standard to basic
below average 4; if neither, the base level passes through unchanged;
history [5,6,7] with base basic gives standard and [7,6,5] with base
advanced gives standard. -/
theorem c6_trend_rules (q : ℚ) (rh : List ℚ) (ih : List String)
    (h3 : 3 ≤ rh.length) :
    (nondecrB (pyLastN 3 rh) = true →
      ((baseLevel q = .basic → 4.5 ≤ (pyLastN 3 rh).sum / 3 →
          calculate_adaptive_ai_level q rh ih = .standard)
       ∧ (baseLevel q = .standard → 7.5 ≤ (pyLastN 3 rh).sum / 3 →
          calculate_adaptive_ai_level q rh ih = .advanced)))
    ∧ (nondecrB (pyLastN 3 rh) = false → nonincB (pyLastN 3 rh) = true →
      ((baseLevel q = .advanced → (pyLastN 3 rh).sum / 3 < 7 →
          calculate_adaptive_ai_level q rh ih = .standard)
       ∧ (baseLevel q = .standard → (pyLastN 3 rh).sum / 3 < 4 →
          calculate_adaptive_ai_level q rh ih = .basic)))
    ∧ (nondecrB (pyLastN 3 rh) = false → nonincB (pyLastN 3 rh) = false →
        calculate_adaptive_ai_level q rh [] = baseLevel q)
    ∧ calculate_adaptive_ai_level 4 [5, 6, 7] [] = .standard
    ∧ calculate_adaptive_ai_level 9 [7, 6, 5] [] = .standard := by
  refine ⟨?_, ?_, ?_, ?_, ?_⟩
  · intro hnd
    constructor
    · intro hb ha
      refine adaptive_of_trend_some ih ?_
      rw [trendStep_eq _ _ h3, if_pos hnd, if_pos ⟨hb, ha⟩]
    · intro hb ha
      refine adaptive_of_trend_some ih ?_
      rw [trendStep_eq _ _ h3, if_pos hnd,
        if_neg (by rintro ⟨h, -⟩; rw [hb] at h; cases h), if_pos ⟨hb, ha⟩]
  · intro hnd hni
    constructor
    · intro hb ha
      refine adaptive_of_trend_some ih ?_
      rw [trendStep_eq _ _ h3, if_neg (by simp [hnd]), if_pos hni, if_pos ⟨hb, ha⟩]
    · intro hb ha
      refine adaptive_of_trend_some ih ?_
      rw [trendStep_eq _ _ h3, if_neg (by simp [hnd]), if_pos hni,
        if_neg (by rintro ⟨h, -⟩; rw [hb] at h; cases h), if_pos ⟨hb, ha⟩]
  · intro hnd hni
    have ht : trendStep (baseLevel q) rh = none := by
      rw [trendStep_eq _ _ h3, if_neg (by simp [hnd]), if_neg (by simp [hni])]
    rw [adaptive_of_trend_none [] ht]
    simp [engagementStep]
  · norm_num [calculate_adaptive_ai_level, trendStep, engagementStep, baseLevel,
      pyLastN, nondecrB, nonincB] <;> rfl
  · norm_num [calculate_adaptive_ai_level, trendStep, engagementStep, baseLevel,
      pyLastN, nondecrB, nonincB] <;> rfl

/-- Claim C6 witness: the two concrete trend scenarios, derived from the
trend theorem with its hypotheses discharged. -/
theorem c6_trend_rules_witness :
    calculate_adaptive_ai_level 4 [5, 6, 7] [] = AILevel.standard
    ∧ calculate_adaptive_ai_level 9 [7, 6, 5] [] = AILevel.standard := by
  refine ⟨((c6_trend_rules 4 [5, 6, 7] [] (by decide)).1 (by decide)).1
      (by decide) (by norm_num [pyLastN]),
    ((c6_trend_rules 9 [7, 6, 5] [] (by decide)).2.1 (by decide) (by decide)).1
      (by decide) (by norm_num [pyLastN])⟩

/-- Claim C3 counterexample: quality 4 gives base basic; the improving
history [5, 5, 5] makes the trend step return standard immediately, so
the engagement step is never reached even though the interaction history
has 2 messages averaging 30 words; the claim as stated (the engagement
rule compares the post-trend level, here standard, against the 25-word
threshold) demands advanced, but the code returns standard. -/
theorem c3_counterexample :
    baseLevel 4 = AILevel.basic
    ∧ trendStep (baseLevel 4) [5, 5, 5] = some AILevel.standard
    ∧ 2 ≤ ([thirtyWords, thirtyWords] : List String).length
    ∧ (25 : ℚ) < (((pyLastN 5 [thirtyWords, thirtyWords]).map pyWordCount).sum : ℚ)
        / ((pyLastN 5 [thirtyWords, thirtyWords]).length : ℚ)
    ∧ calculate_adaptive_ai_level 4 [5, 5, 5] [thirtyWords, thirtyWords]
        = AILevel.standard
    ∧ AILevel.standard ≠ AILevel.advanced := by
  have hw : pyWordCount thirtyWords = 30 := by decide
  refine ⟨by decide, ?_, by decide, ?_, ?_, by decide⟩
  · norm_num [trendStep, baseLevel, pyLastN, nondecrB] <;> rfl
  · simp [pyLastN, hw]
    norm_num
  · norm_num [calculate_adaptive_ai_level, trendStep, engagementStep, baseLevel,
      pyLastN, nondecrB, nonincB] <;> rfl

/-- Claim C3 (amended): the engagement rule runs only when the
reflection-trend step made no adjustment (a trend adjustment returns
immediately); when it runs it compares the BASE level, not a post-trend
level: with at least 2 interactions, average word count above 15 with
base basic gives standard, else above 25 with base standard gives
advanced; the rule never lowers the level. -/
theorem c3_engagement_rule (q : ℚ) (rh : List ℚ) (ih : List String) :
    (∀ l, trendStep (baseLevel q) rh = some l →
        calculate_adaptive_ai_level q rh ih = l)
    ∧ (trendStep (baseLevel q) rh = none →
        calculate_adaptive_ai_level q rh ih = engagementStep (baseLevel q) ih)
    ∧ (2 ≤ ih.length →
        engagementStep (baseLevel q) ih =
          (if 15 < (((pyLastN 5 ih).map pyWordCount).sum : ℚ)
                / ((pyLastN 5 ih).length : ℚ) ∧ baseLevel q = .basic then .standard
           else if 25 < (((pyLastN 5 ih).map pyWordCount).sum : ℚ)
                / ((pyLastN 5 ih).length : ℚ) ∧ baseLevel q = .standard then .advanced
           else baseLevel q))
    ∧ (∀ b, levelRank b ≤ levelRank (engagementStep b ih)) := by
  refine ⟨fun l h => adaptive_of_trend_some ih h, fun h => adaptive_of_trend_none ih h,
    ?_, ?_⟩
  · intro h2
    simp only [engagementStep, if_pos h2]
  · intro b
    simp only [engagementStep]
    split_ifs with h1 h2 h3
    · rcases h2 with ⟨-, rfl⟩; decide
    · rcases h3 with ⟨-, rfl⟩; decide
    · rfl
    · rfl

/-- Claim C3 witness: with an empty reflection history the trend step is
skipped and the result is the engagement step at the base level, which
never ranks below the base level. -/
theorem c3_engagement_rule_witness :
    calculate_adaptive_ai_level 4 [] [thirtyWords, thirtyWords]
      = engagementStep (baseLevel 4) [thirtyWords, thirtyWords]
    ∧ levelRank (baseLevel 4)
      ≤ levelRank (engagementStep (baseLevel 4) [thirtyWords, thirtyWords]) := by
  refine ⟨(c3_engagement_rule 4 [] [thirtyWords, thirtyWords]).2.1 (by decide),
    (c3_engagement_rule 4 [] [thirtyWords, thirtyWords]).2.2.2 (baseLevel 4)⟩

/-! ## The access gate -/

lemma adaptive_empty_histories (q : ℚ) :
    calculate_adaptive_ai_level q [] [] = baseLevel q := by
  simp [calculate_adaptive_ai_level, trendStep, engagementStep]

/-- Claim C4: the gate rules run in order (word count below 50 denies
with no level before quality is considered, then quality below 3
denies, then access is granted at the adaptive level, which with no
history is the base tier mapping basic below 5, standard below 8, else
advanced); the tier lower bounds are inclusive (3 grants basic, 5 gives
standard, 8 gives advanced, 2.999 denies at sufficient length), and the
endpoint grants access exactly as the gate does. -/
theorem c4_access_gate (wc : Nat) (q : ℚ) (rh : List ℚ) (ih : List String) :
    (wc < 50 → accessGate wc q rh ih = (false, none))
    ∧ (50 ≤ wc → q < 3 → accessGate wc q rh ih = (false, none))
    ∧ (50 ≤ wc → 3 ≤ q → accessGate wc q rh ih
        = (true, some (calculate_adaptive_ai_level q rh ih)))
    ∧ (3 ≤ q → q < 5 → accessGate 50 q [] [] = (true, some .basic))
    ∧ (5 ≤ q → q < 8 → accessGate 50 q [] [] = (true, some .standard))
    ∧ (8 ≤ q → accessGate 50 q [] [] = (true, some .advanced))
    ∧ accessGate 50 3 [] [] = (true, some .basic)
    ∧ accessGate 50 5 [] [] = (true, some .standard)
    ∧ accessGate 50 8 [] [] = (true, some .advanced)
    ∧ accessGate 50 2.999 [] [] = (false, none)
    ∧ (∀ (reflection : String) (assessOk adaptiveOk : Bool)
        (gh gp : Option (List String)),
        (submit_reflection reflection rh ih assessOk adaptiveOk gh gp).access_granted
          = (accessGate (pyWordCount reflection)
              (if assessOk then assess_reflection_quality reflection else 5)
              rh ih).1) := by
  have hno50 : ¬(50 < 50) := by omega
  refine ⟨?_, ?_, ?_, ?_, ?_, ?_, ?_, ?_, ?_, ?_, ?_⟩
  · intro h
    rw [accessGate, if_pos h]
  · intro h hq
    rw [accessGate, if_neg (by omega), if_pos hq]
  · intro h hq
    rw [accessGate, if_neg (by omega), if_neg (not_lt.mpr hq)]
  · intro h1 h2
    rw [accessGate, if_neg hno50, if_neg (not_lt.mpr (by linarith)),
      adaptive_empty_histories, baseLevel, if_pos h2]
  · intro h1 h2
    rw [accessGate, if_neg hno50, if_neg (not_lt.mpr (by linarith)),
      adaptive_empty_histories, baseLevel, if_neg (not_lt.mpr h1), if_pos h2]
  · intro h1
    rw [accessGate, if_neg hno50, if_neg (not_lt.mpr (by linarith)),
      adaptive_empty_histories, baseLevel, if_neg (not_lt.mpr (by linarith)),
      if_neg (not_lt.mpr h1)]
  · rw [accessGate, if_neg hno50, if_neg (by norm_num), adaptive_empty_histories]
    norm_num [baseLevel]
  · rw [accessGate, if_neg hno50, if_neg (by norm_num), adaptive_empty_histories]
    norm_num [baseLevel]
  · rw [accessGate, if_neg hno50, if_neg (by norm_num), adaptive_empty_histories]
    norm_num [baseLevel]
  · rw [accessGate, if_neg hno50, if_pos (by norm_num)]
  · intro reflection assessOk adaptiveOk gh gp
    simp only [submit_reflection, accessGate]
    split_ifs <;> rfl

/-- Claim C4 witness: the gate at a 50-word count and quality exactly 3
grants basic access; below 50 words it denies regardless of quality. -/
theorem c4_access_gate_witness :
    accessGate 50 3 [] [] = (true, some AILevel.basic)
    ∧ accessGate 49 (9 : ℚ) [] [] = (false, none)
    ∧ accessGate 50 (4 : ℚ) [] [] = (true, some AILevel.basic) := by
  refine ⟨(c4_access_gate 50 3 [] []).2.2.2.2.2.2.1,
    (c4_access_gate 49 (9 : ℚ) [] []).1 (by omega),
    (c4_access_gate 50 (4 : ℚ) [] []).2.2.2.1 (by norm_num) (by norm_num)⟩

/-! ## The reflect endpoint degrades instead of failing -/

lemma defaultQuestions_length (l : AILevel) : (defaultQuestions l).length = 3 := by
  cases l <;> rfl

/-- Claim C9: for every well-formed owned submission and every
combination of step failures, the reflect endpoint returns a structured
decision: a denial never carries a level and a grant always does; when
the quality assessment fails the decision is computed with the default
moderate score 5 (which always passes the quality gate, so a sufficiently
long reflection is still granted); when the adaptive step fails the base
tier mapping of the score is used; when both generator tiers fail the
three fixed per-level fallback questions are returned. -/
theorem c9_submit_reflection_degrades (reflection : String) (rh : List ℚ)
    (ih : List String) (assessOk adaptiveOk : Bool) (gh gp : Option (List String)) :
    ((submit_reflection reflection rh ih assessOk adaptiveOk gh gp).access_granted
        = false →
      (submit_reflection reflection rh ih assessOk adaptiveOk gh gp).ai_level = none)
    ∧ ((submit_reflection reflection rh ih assessOk adaptiveOk gh gp).access_granted
        = true →
      ∃ l, (submit_reflection reflection rh ih assessOk adaptiveOk gh gp).ai_level
        = some l)
    ∧ (assessOk = false →
      (submit_reflection reflection rh ih assessOk adaptiveOk gh gp).quality_score = 5)
    ∧ (assessOk = false → 50 ≤ pyWordCount reflection →
      (submit_reflection reflection rh ih assessOk adaptiveOk gh gp).access_granted
        = true)
    ∧ (adaptiveOk = false →
      ∀ l, (submit_reflection reflection rh ih assessOk adaptiveOk gh gp).ai_level
          = some l →
        l = baseLevel
          (submit_reflection reflection rh ih assessOk adaptiveOk gh gp).quality_score)
    ∧ (gh = none → gp = none →
      ∀ l, (submit_reflection reflection rh ih assessOk adaptiveOk gh gp).ai_level
          = some l →
        (submit_reflection reflection rh ih assessOk adaptiveOk gh gp).initial_questions
            = some (defaultQuestions l)
          ∧ (defaultQuestions l).length = 3) := by
  refine ⟨?_, ?_, ?_, ?_, ?_, ?_⟩
  · simp only [submit_reflection]
    split_ifs <;> simp
  · simp only [submit_reflection]
    split_ifs <;> simp
  · intro ha
    subst ha
    simp only [submit_reflection, Bool.false_eq_true, if_false]
    split_ifs <;> rfl
  · intro ha hwc
    subst ha
    simp only [submit_reflection, Bool.false_eq_true, if_false]
    rw [if_neg (by omega), if_neg (by norm_num)]
  · intro ha l
    subst ha
    simp only [submit_reflection, Bool.false_eq_true, if_false]
    split_ifs <;> simp_all
  · intro h1 h2 l
    subst h1; subst h2
    simp only [submit_reflection]
    split_ifs <;> simp_all [defaultQuestions_length]

/-- Claim C9 witness: a 60-word reflection with every fallible step
failing still yields a granted decision with the default score, its base
level, and the three fixed basic-level fallback questions. -/
theorem c9_submit_reflection_degrades_witness :
    (submit_reflection (String.intercalate " " (List.replicate 60 "w"))
        [] [] false false none none).quality_score = 5
    ∧ (submit_reflection (String.intercalate " " (List.replicate 60 "w"))
        [] [] false false none none).access_granted = true := by
  refine ⟨(c9_submit_reflection_degrades _ [] [] false false none none).2.2.1 rfl,
    (c9_submit_reflection_degrades _ [] [] false false none none).2.2.2.1 rfl
      (by decide)⟩

/-! ## Unrecognized AI levels fall through to the advanced tier -/

/-- Claim C10: every level string other than exactly "basic" or
"standard" (such as "expert" or the empty string) is routed to the
advanced tier by all response-generation dispatches: the advanced
question templates, the critical question type with the advanced
instruction, the advanced follow-up prompts, and the context-aware
generator tags the interaction "critical"; no branch rejects the
value. -/
theorem c10_unrecognized_level_advanced (ai_level : String)
    (h1 : ai_level ≠ "basic") (h2 : ai_level ≠ "standard") :
    generate_questions_templates ai_level = ADVANCED_QUESTION_TEMPLATES
    ∧ responseRoute ai_level
      = ("critical",
         "Ask sophisticated questions that challenge assumptions and explore deeper implications.")
    ∧ (∀ context : String, get_follow_up_prompts context ai_level
        = ["What are the implications of this argument?",
           "How does this challenge conventional thinking?",
           "What assumptions are you making here?"])
    ∧ (∀ (question context document_summary_text : String)
        (conv : List InteractionRec) (vs : List VersionRec) (gen : String → String),
        (generate_socratic_response_with_context question context ai_level conv vs
            (some document_summary_text) gen).2 = "critical") := by
  refine ⟨?_, ?_, fun context => ?_, fun _ _ _ _ _ _ => ?_⟩
  · rw [generate_questions_templates, if_neg h1, if_neg h2]
  · rw [responseRoute, if_neg h1, if_neg h2]
  · rw [get_follow_up_prompts, if_neg h1, if_neg h2]
  · simp only [generate_socratic_response_with_context, responseRoute,
      if_neg h1, if_neg h2]

/-- Claim C10 witness: the unrecognized level "expert" selects the
advanced question templates and the critical question type. -/
theorem c10_unrecognized_level_advanced_witness :
    generate_questions_templates "expert" = ADVANCED_QUESTION_TEMPLATES
    ∧ (responseRoute "expert").1 = "critical" := by
  refine ⟨(c10_unrecognized_level_advanced "expert" (by decide) (by decide)).1,
    by rw [(c10_unrecognized_level_advanced "expert" (by decide) (by decide)).2.1]⟩

/-! ## Prompt windows: conversation history and document versions -/

lemma mergeSortDesc_eq (stored chron : List InteractionRec)
    (hp : stored.Perm chron)
    (ha : chron.Pairwise (fun a b => a.created_at < b.created_at)) :
    stored.mergeSort (fun a b => decide (b.created_at ≤ a.created_at))
      = chron.reverse := by
  set le : InteractionRec → InteractionRec → Bool :=
    fun a b => decide (b.created_at ≤ a.created_at) with hle
  have hperm : (stored.mergeSort le).Perm chron.reverse :=
    ((List.mergeSort_perm stored le).trans hp).trans (List.reverse_perm chron).symm
  have hsorted : (stored.mergeSort le).Pairwise (fun a b => le a b = true) :=
    List.sorted_mergeSort
      (fun a b c h1 h2 => by
        simp only [hle, decide_eq_true_eq] at h1 h2 ⊢
        omega)
      (fun a b => by
        simp only [hle, Bool.or_eq_true, decide_eq_true_eq]
        omega)
      stored
  have weak : (stored.mergeSort le).Pairwise
      (fun a b => b.created_at ≤ a.created_at) :=
    hsorted.imp (fun h => by simpa [hle] using h)
  have hkeysChron : (chron.map (fun r => r.created_at)).Nodup :=
    List.pairwise_map.mpr (ha.imp (fun h => Nat.ne_of_lt h))
  have hkeysM : ((stored.mergeSort le).map (fun r => r.created_at)).Nodup :=
    ((hperm.map _).trans ((List.reverse_perm chron).map _)).nodup_iff.mpr hkeysChron
  have strictM : (stored.mergeSort le).Pairwise
      (fun a b => b.created_at < a.created_at) := by
    have hne : (stored.mergeSort le).Pairwise
        (fun a b => a.created_at ≠ b.created_at) := List.pairwise_map.mp hkeysM
    exact (weak.and hne).imp (fun h => by omega)
  have strictR : chron.reverse.Pairwise
      (fun a b => b.created_at < a.created_at) := List.pairwise_reverse.mpr ha
  haveI : IsAntisymm InteractionRec (fun a b => b.created_at < a.created_at) :=
    ⟨fun a b h1 h2 => absurd (Nat.lt_trans h1 h2) (Nat.lt_irrefl _)⟩
  exact List.eq_of_perm_of_sorted hperm strictM strictR

lemma askConvWindow_of_20 (stored chron : List InteractionRec)
    (hp : stored.Perm chron)
    (ha : chron.Pairwise (fun a b => a.created_at < b.created_at))
    (h20 : chron.length = 20) :
    askConvWindow stored = chron.drop 15 := by
  unfold askConvWindow convQueryDesc
  rw [mergeSortDesc_eq stored chron hp ha]
  have h5 : chron.reverse.take 5 = (chron.drop 15).reverse := by
    rw [List.reverse_drop, h20]
  rw [h5, List.reverse_reverse]

lemma askConvWindow_le5 (stored : List InteractionRec) :
    (askConvWindow stored).length ≤ 5 := by
  simp only [askConvWindow, convQueryDesc, List.length_reverse, List.length_take]
  exact Nat.min_le_left _ _

lemma versionQueryDesc_le3 (vs : List VersionRec) :
    (versionQueryDesc vs).length ≤ 3 := by
  simp only [versionQueryDesc, List.length_take]
  exact Nat.min_le_left _ _

lemma strConcat_length_le (L : List String) (b : Nat)
    (h : ∀ x ∈ L, x.length ≤ b) : (strConcat L).length ≤ L.length * b := by
  induction L with
  | nil => simp [strConcat]
  | cons a t ih =>
    have ha := h a (List.mem_cons_self _ _)
    have ht := ih (fun x hx => h x (List.mem_cons_of_mem _ hx))
    simp only [strConcat, String.length_append, List.length_cons, Nat.add_mul,
      Nat.one_mul]
    omega

lemma pyLastN_le (n : Nat) (l : List α) : (pyLastN n l).length ≤ n := by
  simp only [pyLastN, List.length_drop]
  omega

lemma renderVersion_length (i : Nat) (v : VersionRec) (hi : i < 3) :
    (renderVersion i v).length ≤ 215 := by
  have ht : (toString (i + 1)).length = 1 := by interval_cases i <;> rfl
  have htr : (pyTrunc 200 v.content).length ≤ 200 := by
    show (v.content.data.take 200).length ≤ 200
    rw [List.length_take]
    exact Nat.min_le_left _ _
  have h1 : ("Version " : String).length = 8 := rfl
  have h2 : (": " : String).length = 2 := rfl
  have h3 : ("...\n" : String).length = 4 := rfl
  simp only [renderVersion, String.length_append, ht, h1, h2, h3]
  omega

lemma versionsSection_length_le (vs : List VersionRec) :
    (versionsSection vs none).length ≤ 697 := by
  unfold versionsSection
  split
  · have hhead : ("\n\nTheir writing has evolved through these versions:\n"
        : String).length = 52 := rfl
    have hitems : ∀ x ∈ (pyLastN 3 vs).enum.map (fun p => renderVersion p.1 p.2),
        x.length ≤ 215 := by
      intro x hx
      rcases List.mem_map.mp hx with ⟨⟨i, v⟩, hmem, rfl⟩
      have hi : i < (pyLastN 3 vs).length := (List.mem_enum hmem).1
      exact renderVersion_length i v (lt_of_lt_of_le hi (pyLastN_le 3 vs))
    have hcount : ((pyLastN 3 vs).enum.map (fun p => renderVersion p.1 p.2)).length ≤ 3 := by
      rw [List.length_map, List.enum_length]
      exact pyLastN_le 3 vs
    have := strConcat_length_le _ 215 hitems
    rw [String.length_append, hhead]
    omega
  · simp

/-- Claim C8: with 20 stored interactions for the document (in any store
ordering, with distinct timestamps) the conversation window of the
assembled prompt is exactly the 5 most recent interactions in
chronological order, oldest of the five first, and the history section
renders them in that order; in general the window never exceeds 5
entries; the document-version query returns at most the 3 most recent
versions and the rendered versions section is bounded by a constant (697
characters) independent of any version content, each version being
truncated to 200 characters with an ellipsis marker. -/
theorem c8_prompt_windows (stored chron : List InteractionRec)
    (hp : stored.Perm chron)
    (ha : chron.Pairwise (fun a b => a.created_at < b.created_at))
    (h20 : chron.length = 20) :
    askConvWindow stored = chron.drop 15
    ∧ (askConvWindow stored).length = 5
    ∧ historySection (askConvWindow stored)
        = "\n\nPrevious conversation:\n"
          ++ strConcat ((chron.drop 15).map renderConvTurn)
    ∧ (∀ anyStored : List InteractionRec, (askConvWindow anyStored).length ≤ 5)
    ∧ (∀ vs : List VersionRec, (versionQueryDesc vs).length ≤ 3)
    ∧ (∀ vs : List VersionRec, (versionsSection vs none).length ≤ 697) := by
  have hwin : askConvWindow stored = chron.drop 15 :=
    askConvWindow_of_20 stored chron hp ha h20
  have hlen : (chron.drop 15).length = 5 := by
    rw [List.length_drop, h20]
  have hself : pyLastN 5 (chron.drop 15) = chron.drop 15 := by
    rw [pyLastN, hlen]
    simp
  refine ⟨hwin, by rw [hwin, hlen], ?_, askConvWindow_le5, versionQueryDesc_le3,
    versionsSection_length_le⟩
  rw [hwin, historySection, if_pos (by rw [hlen]; omega), hself]

/-- Claim C8 witness: a concrete store of 20 interactions with ascending
timestamps yields exactly the last five, in order. -/
theorem c8_prompt_windows_witness :
    askConvWindow ((List.range 20).map sampleInteraction)
      = ((List.range 20).map sampleInteraction).drop 15
    ∧ (askConvWindow ((List.range 20).map sampleInteraction)).length = 5 := by
  refine ⟨(c8_prompt_windows _ _ (List.Perm.refl _) (by decide) (by decide)).1,
    (c8_prompt_windows _ _ (List.Perm.refl _) (by decide) (by decide)).2.1⟩

end ScribeTree
